import Mathlib

set_option maxRecDepth 8000

/-! Formal model of the dynamic code-generation and sandboxed-execution
pipeline in dynamic_with_gradio.py (and the shared sandbox pieces of
dynamic_agent.py).  Python strings are modelled as Lean strings or
character lists; every regular expression of the source is transcribed as
an explicit character-list matcher with the same matching behaviour on the
line shapes involved. -/

/-- ASCII whitespace, as matched by the regex class backslash-s and by
str.lstrip and str.strip on the ASCII text this pipeline handles. -/
def isPySpace (c : Char) : Bool :=
  c == ' ' || c == '\t' || c == '\n' || c == '\r' || c == '\x0b' || c == '\x0c'

/-- ASCII word characters, as matched by the regex class backslash-w
on the ASCII identifiers this pipeline handles. -/
def isWordChar (c : Char) : Bool :=
  c.isAlpha || c.isDigit || c == '_'

/-- Match a literal token at the head of the list, returning the remainder. -/
def eatToken : List Char → List Char → Option (List Char)
  | [], l => some l
  | _ :: _, [] => none
  | c :: cs, d :: ds => if c == d then eatToken cs ds else none

/-- Match one-or-more whitespace characters, greedily (regex backslash-s+). -/
def eatSpaces1 : List Char → Option (List Char)
  | [] => none
  | c :: cs => if isPySpace c then some (cs.dropWhile isPySpace) else none

/-- Substring search at the character-list level. -/
def strContainsAux (sub : List Char) : List Char → Bool
  | [] => sub.isEmpty
  | c :: cs => (eatToken sub (c :: cs)).isSome || strContainsAux sub cs

/-- The Python substring test: sub in s. -/
def strContains (s sub : String) : Bool := strContainsAux sub.toList s.toList

/-! Sandbox import hook (dynamic_with_gradio.py lines 271-281 and
dynamic_agent.py lines 90-103, identical logic). -/

/-- ALLOWED_MODULE_PREFIXES from the source. -/
def ALLOWED_MODULE_PREFIXES : List String := ["google", "asyncio", "typing"]

/-- ALLOWED_STD_MODULES from the source. -/
def ALLOWED_STD_MODULES : List String :=
  ["io", "json", "re", "os", "contextlib", "types", "collections"]

/-- Python str.startswith against a single candidate. -/
def pyStartsWith (name p : String) : Bool := (eatToken p.toList name.toList).isSome

/-- name.startswith(ALLOWED_MODULE_PREFIXES): true when any tuple element
is a leading substring of name. -/
def startsWithAnyAllowed (name : String) : Bool :=
  ALLOWED_MODULE_PREFIXES.any (fun p => pyStartsWith name p)

/-- name in ALLOWED_STD_MODULES. -/
def isAllowedStdModule (name : String) : Bool :=
  ALLOWED_STD_MODULES.any (fun m => m == name)

/-- The guard condition of _safe_import. -/
def importAllowed (name : String) : Bool :=
  startsWithAnyAllowed name || isAllowedStdModule name

/-- Result of the import hook: either delegation to the real import of the
given module name, or a raised ImportError with the given message. -/
inductive ImportOutcome
  | delegated (name : String)
  | importError (msg : String)
deriving DecidableEq

/-- _safe_import: delegate allow-listed names to the real import, raise an
ImportError for everything else. -/
def safe_import (name : String) : ImportOutcome :=
  if importAllowed name then ImportOutcome.delegated name
  else ImportOutcome.importError
    ("Import of '" ++ name ++ "' is not allowed in this runner.")

/-! Execution namespace of run_generated_adk
(dynamic_with_gradio.py lines 283-305). -/

/-- SAFE_BUILTIN_NAMES from the source. -/
def SAFE_BUILTIN_NAMES : List String := [
  "print", "len", "range", "enumerate", "zip", "min", "max", "abs",
  "str", "int", "float", "bool", "dict", "list", "set", "tuple",
  "isinstance", "issubclass", "getattr", "setattr", "hasattr",
  "object", "type", "property", "staticmethod", "classmethod",
  "sorted", "sum", "map", "filter", "any", "all",
  "Exception", "BaseException", "RuntimeError", "ValueError",
  "TypeError", "NameError", "ImportError", "KeyError", "IndexError",
  "__build_class__"]

/-- Keys of the safe-builtins dict handed to generated code: every
whitelist name present in the host builtins (all of them are in CPython),
plus the import hook installed under the import dunder key. -/
def safeBuiltinsKeys : List String := SAFE_BUILTIN_NAMES ++ ["__import__"]

/-- Keys of the globals dict g constructed by run_generated_adk. -/
def execGlobalsKeys : List String :=
  ["__builtins__", "__name__", "__package__", "__spec__", "INPUT_TEXT"]

/-- Keys of the globals dict g constructed by run_generated_adk in
dynamic_agent.py (lines 121-129): the same fixed entries plus the
sentinel y injected alongside INPUT_TEXT. -/
def execGlobalsKeysAgent : List String :=
  ["__builtins__", "__name__", "__package__", "__spec__", "y", "INPUT_TEXT"]

/-! The source patcher _patch_generated_code
(dynamic_with_gradio.py lines 199-266), modelled step by step.
The pipeline normalizes CRLF to LF before patching, so line splitting is
splitting on the newline character; Python str.splitlines drops a final
empty piece. -/

/-- Split on every newline character (Python str.split on a newline). -/
def splitNl : List Char → List (List Char)
  | [] => [[]]
  | c :: cs =>
    if c == '\n' then [] :: splitNl cs
    else
      match splitNl cs with
      | [] => [[c]]
      | l :: ls => (c :: l) :: ls

/-- Python str.splitlines on LF-normalized text: split on newlines and
drop a final empty piece. -/
def pySplitlinesL (l : List Char) : List (List Char) :=
  let parts := splitNl l
  match parts.getLast? with
  | some [] => parts.dropLast
  | _ => parts

/-- Python newline.join(lines). -/
def joinNl : List (List Char) → List Char
  | [] => []
  | [l] => l
  | l :: ls => l ++ '\n' :: joinNl ls

/-- len(line) - len(line.lstrip()): the number of leading whitespace
characters of a line. -/
def indentOfL (l : List Char) : Nat := (l.takeWhile isPySpace).length

/-- The regex matching the run_once header (line 213): anchored optional
whitespace, async, whitespace, def, whitespace, run_once, optional
whitespace, open parenthesis. -/
def matchRunOnceDefL (l : List Char) : Bool :=
  (do
    let r₁ ← eatToken "async".toList (l.dropWhile isPySpace)
    let r₂ ← eatSpaces1 r₁
    let r₃ ← eatToken "def".toList r₂
    let r₄ ← eatSpaces1 r₃
    let r₅ ← eatToken "run_once".toList r₄
    eatToken "(".toList (r₅.dropWhile isPySpace)).isSome

/-- The regex detecting any function header (line 221): anchored optional
whitespace, def or async-def, whitespace, an identifier, optional
whitespace, open parenthesis. -/
def matchAnyDefL (l : List Char) : Bool :=
  let r₀ := l.dropWhile isPySpace
  let afterKw : Option (List Char) :=
    match eatToken "def".toList r₀ with
    | some r => some r
    | none => do
        let r₁ ← eatToken "async".toList r₀
        let r₂ ← eatSpaces1 r₁
        eatToken "def".toList r₂
  match afterKw with
  | none => false
  | some r =>
    match eatSpaces1 r with
    | none => false
    | some r₂ =>
      if (r₂.takeWhile isWordChar).isEmpty then false
      else (eatToken "(".toList ((r₂.dropWhile isWordChar).dropWhile isPySpace)).isSome

/-- The regex detecting a pure print line (line 224): anchored optional
whitespace, print, open parenthesis, anything, close parenthesis, optional
whitespace, end of line. -/
def matchPurePrintL (l : List Char) : Bool :=
  match eatToken "print(".toList (l.dropWhile isPySpace) with
  | none => false
  | some rest =>
    match rest.reverse.dropWhile isPySpace with
    | ')' :: _ => true
    | _ => false

/-- The loop of patch step 1 (lines 212-227): strip pure print lines while
lexically inside run_once, where the body end is detected only by a later
function header at an indentation not greater than the run_once header. -/
def step1Lines : List (List Char) → Bool → Nat → List (List Char)
  | [], _, _ => []
  | line :: rest, inRun, runIndent =>
    if !inRun && matchRunOnceDefL line then
      line :: step1Lines rest true (indentOfL line)
    else if inRun then
      if matchAnyDefL line && decide (indentOfL line ≤ runIndent) then
        line :: step1Lines rest false runIndent
      else if matchPurePrintL line then
        step1Lines rest true runIndent
      else
        line :: step1Lines rest true runIndent
    else
      line :: step1Lines rest false runIndent

/-- Patch step 1 of _patch_generated_code: strip pure print lines tracked
by indentation from the run_once body. -/
def patchStep1 (code : String) : String :=
  String.mk (joinNl (step1Lines (pySplitlinesL code.toList) false 0))

/-- The literal session-creation call head appearing in the step 2 regex. -/
def sscsTok : List Char := "session_service.create_session(".toList

/-- The optional await-plus-whitespace group of the step 2 regex: consume
it when present, otherwise continue from the same position. -/
def afterAwaitOpt (rest : List Char) : List Char :=
  match eatToken "await".toList rest with
  | some r =>
    match eatSpaces1 r with
    | some r₂ => r₂
    | none => rest
  | none => rest

/-- The regex of _normalize_create_session (line 237): anchored captured
indentation, optional await plus whitespace, the session-creation call
head, captured arguments, close parenthesis, optional trailing whitespace,
end of line.  Returns the two captures (indentation, arguments). -/
def matchCreateSessionL (l : List Char) : Option (List Char × List Char) :=
  let ind := l.takeWhile isPySpace
  match eatToken sscsTok (afterAwaitOpt (l.dropWhile isPySpace)) with
  | none => none
  | some r =>
    match r.reverse.dropWhile isPySpace with
    | [] => none
    | c :: argsRev => if c == ')' then some (ind, argsRev.reverse) else none

/-- The per-line body of the _normalize_create_session loop (lines
238-246): a matching line becomes the three-line conditional-await
pattern, any other line is kept. -/
def normLineL (l : List Char) : List (List Char) :=
  match matchCreateSessionL l with
  | some (ind, args) =>
    [ind ++ "_maybe = session_service.create_session(".toList ++ args ++ [')'],
     ind ++ "if hasattr(_maybe, '__await__'):".toList,
     ind ++ "    await _maybe".toList]
  | none => [l]

/-- The per-line rewrite at the string level. -/
def normalizeCreateSessionLine (line : String) : List String :=
  (normLineL line.toList).map String.mk

/-- Patch step 2: _normalize_create_session applied to whole source text. -/
def normalize_create_session (src : String) : String :=
  String.mk (joinNl (List.flatten ((pySplitlinesL src.toList).map normLineL)))

/-- hasattr(x, dunder-await) on the value returned by the session-creation
call, the one attribute the emitted guard inspects. -/
structure SessionCallResult where
  hasAwaitDunder : Bool

/-- Modelled from the three emitted lines of the step 2 rewrite: the call
is performed unconditionally, then the result is awaited exactly when the
hasattr guard holds.  Returns (call performed, result awaited). -/
def runEmittedGuard (res : SessionCallResult) : Bool × Bool :=
  (true, if res.hasAwaitDunder then true else false)

/-- The constants header prepended by patch step 3 (line 254). -/
def constantsHeader : String :=
  "APP_NAME = 'dyn_adk'\nUSER_ID = 'user-1'\nSESSION_ID = 'sess-1'\n\n"

/-- Patch step 3 (lines 250-255): prepend the three constant definitions
when a session-creation call is present textually and not all three names
occur as substrings. -/
def patchStep3 (patched : String) : String :=
  let needConstants :=
    strContains patched "session_service.create_session" &&
      !(strContains patched "APP_NAME" && strContains patched "USER_ID" &&
        strContains patched "SESSION_ID")
  if needConstants then constantsHeader ++ patched else patched

/-- The canonical script guard emitted by patch step 4. -/
def canonicalGuard : String := "if __name__ == \"__main__\":"

/-- Matcher for one guard-typo regex body (lines 259-261), after the word
boundary: if, whitespace, the name token, optional whitespace, two equal
signs, optional whitespace, a quote, the main token, a quote, optional
whitespace, colon.  Returns the remainder after the colon. -/
def matchGuardCore (nameTok mainTok : List Char) (l : List Char) : Option (List Char) := do
  let r₁ ← eatToken "if".toList l
  let r₂ ← eatSpaces1 r₁
  let r₃ ← eatToken nameTok r₂
  let r₄ ← eatToken "==".toList (r₃.dropWhile isPySpace)
  let r₅ ←
    match r₄.dropWhile isPySpace with
    | c :: cs => if c == '\'' || c == '"' then some cs else none
    | [] => none
  let r₆ ← eatToken mainTok r₅
  let r₇ ←
    match r₆ with
    | c :: cs => if c == '\'' || c == '"' then some cs else none
    | [] => none
  eatToken ":".toList (r₇.dropWhile isPySpace)

/-- The re.sub scan for the word-boundary guard patterns: at every position
whose preceding character is not a word character, try the pattern; on a
match emit the replacement and resume after the matched text (which ends
in a colon, a non-word character).  The fuel equals the text length. -/
def subGuardAux (mf : List Char → Option (List Char)) (repl : List Char) :
    Nat → Bool → List Char → List Char
  | 0, _, l => l
  | _ + 1, _, [] => []
  | fuel + 1, prevWord, c :: cs =>
    if !prevWord then
      match mf (c :: cs) with
      | some rest => repl ++ subGuardAux mf repl fuel false rest
      | none => c :: subGuardAux mf repl fuel (isWordChar c) cs
    else
      c :: subGuardAux mf repl fuel (isWordChar c) cs

/-- One full re.sub pass. -/
def subGuard (mf : List Char → Option (List Char)) (repl : List Char)
    (l : List Char) : List Char :=
  subGuardAux mf repl l.length false l

/-- The three sequential guard-typo substitutions of patch step 4. -/
def guardTyposFixed (s : List Char) : List Char :=
  let p₁ := subGuard (matchGuardCore "name".toList "main".toList) canonicalGuard.toList s
  let p₂ := subGuard (matchGuardCore "__name__".toList "main".toList) canonicalGuard.toList p₁
  subGuard (matchGuardCore "name".toList "__main__".toList) canonicalGuard.toList p₂

/-- The final re.search of step 4 (line 263): some occurrence of the
canonical guard is followed only by whitespace up to the end of text. -/
def guardAtEnd : List Char → Bool
  | [] => false
  | c :: cs =>
    (match eatToken canonicalGuard.toList (c :: cs) with
     | some rest => rest.all isPySpace
     | none => false) || guardAtEnd cs

/-- Patch step 4 (lines 257-264): normalize guard typos, then append a
default invocation body when the canonical guard ends the text followed
only by whitespace. -/
def patchStep4 (s : String) : String :=
  let p := guardTyposFixed s.toList
  if guardAtEnd p then
    String.mk (p ++ "\n    print(asyncio.run(run_once(INPUT_TEXT)))\n".toList)
  else String.mk p

/-- _patch_generated_code: the four patch steps in source order. -/
def patch_generated_code (code : String) : String :=
  patchStep4 (patchStep3 (normalize_create_session (patchStep1 code)))

/-! Validation tail of generate_adk_code
(dynamic_with_gradio.py lines 186-197). -/

/-- The five required contract substrings (lines 187-193). -/
def requiredPieces : List String := [
  "from google.adk.agents import Agent",
  "from google.adk.runners import Runner",
  "from google.adk.sessions import InMemorySessionService",
  "from google.genai import types",
  "async def run_once"]

/-- all(s in code for s in required). -/
def validateRequired (code : String) : Bool :=
  requiredPieces.all (fun s => strContains code s)

/-- The tail of generate_adk_code after fence extraction, fence
sanitizing, and CRLF normalization: the required-pieces guard (raising a
ValueError when a piece is missing), then the patch pass applied to the
accepted extracted code. -/
def generate_adk_code_postExtract (code : String) : Except String String :=
  if validateRequired code then Except.ok (patch_generated_code code)
  else Except.error "Generated code missing required ADK pieces."

/-- The required substrings of dynamic_agent.py generate_adk_code
(line 81): module paths rather than full import statements. -/
def requiredPiecesAgent : List String :=
  ["google.adk.agents", "google.adk.runners", "google.adk.sessions",
   "google.genai", "async def run_once"]

/-- all(s in code for s in required) for the dynamic_agent.py guard. -/
def validateRequiredAgent (code : String) : Bool :=
  requiredPiecesAgent.all (fun s => strContains code s)

/-- The validation tail of generate_adk_code in dynamic_agent.py
(lines 79-84): the guard on the weaker module-path substrings; there is no
patch pass, the accepted extracted code is returned as is and later handed
to that file's run_generated_adk. -/
def generate_adk_code_agent_postExtract (code : String) : Except String String :=
  if validateRequiredAgent code then Except.ok code
  else Except.error "Generated code missing required ADK pieces."

/-- The counterexample input for claim C3: contains every module-path
substring checked by dynamic_agent.py but none of the four
required import statements. -/
def c3AgentInput : String :=
  "import google.adk.agents\nimport google.adk.runners\nimport google.adk.sessions\nimport google.genai\n\nasync def run_once(user_text: str) -> str:\n    return user_text"

/-- The failing input for claim C4: a print inside run_once and a
top-level print after the function body has ended. -/
def c4Input : String :=
  "async def run_once(user_text: str) -> str:\n    print(\"debug\")\n    return user_text\n\nprint(\"AFTER\")"

/-- The counterexample input for claim C7: a session-creation call whose
arguments are literals, so none of the three constants is referenced. -/
def c7Input : String :=
  "session_service.create_session(app_name='a', user_id='u', session_id='s')"

/-! The retry wrapper _llm_completion
(dynamic_with_gradio.py lines 101-128).  The underlying
litellm.completion call is an oracle giving the outcome of each attempt;
sleeps are recorded in milliseconds, 750 milliseconds being the 0.75
second base of the exponential backoff. -/

/-- The loop for attempt in range(max_retries) of _llm_completion, indexed
by the number of remaining iterations.  A successful call returns the
response; a failure on the last iteration re-raises the error; a failure
earlier sleeps 750 * 2 ^ attempt milliseconds and retries.  Falling out of
the loop (max_retries = 0) returns Python None.  The value is (outcome,
attempts performed, recorded sleeps). -/
def llmRun (call : Nat → Except String String) :
    Nat → Nat → Except String (Option String) × Nat × List Nat
  | 0, attempt => (Except.ok none, attempt, [])
  | 1, attempt =>
    (match call attempt with
     | Except.ok r => (Except.ok (some r), attempt + 1, [])
     | Except.error e => (Except.error e, attempt + 1, []))
  | fuel + 2, attempt =>
    match call attempt with
    | Except.ok r => (Except.ok (some r), attempt + 1, [])
    | Except.error _ =>
      let next := llmRun call (fuel + 1) (attempt + 1)
      (next.1, next.2.1, (750 * 2 ^ attempt) :: next.2.2)

/-- _llm_completion: run the retry loop from attempt 0. -/
def llm_completion (call : Nat → Except String String) (max_retries : Nat) :
    Except String (Option String) × Nat × List Nat :=
  llmRun call max_retries 0

/-- The clamp max(0, int(retries)) applied by generate_and_run (line 375)
before passing the retry count down. -/
def clampRetries (retries : Int) : Nat := (max 0 retries).toNat

/-! Whole-script execution tail of run_generated_adk
(dynamic_with_gradio.py lines 341-348). -/

/-- Outcome of executing the compiled script inside the redirected-stdout
block: the stdout text captured up to completion or failure, and the
failure message when an exception was raised. -/
structure ExecAttempt where
  partialOut : String
  failure : Option String

/-- Python str.strip on the captured buffer. -/
def pyStrip (s : String) : String :=
  String.mk (((s.toList.dropWhile isPySpace).reverse.dropWhile isPySpace).reverse)

/-- The whole-script tail of run_generated_adk: a runtime exception is
re-raised as a RuntimeError whose message carries the original error and
the captured stdout; otherwise the trimmed buffer is returned. -/
def wholeScriptOutcome (a : ExecAttempt) : Except String String :=
  match a.failure with
  | some e =>
    Except.error ("Error while executing generated code: " ++ e ++
      "\n\nCaptured stdout:\n" ++ a.partialOut)
  | none => Except.ok (pyStrip a.partialOut)

/-! Theorems. -/

theorem eatToken_self_append (tok rest : List Char) :
    eatToken tok (tok ++ rest) = some rest := by
  induction tok with
  | nil => rfl
  | cons c cs ih => simp [eatToken, ih]

theorem eatToken_eq_some (tok : List Char) :
    ∀ l r, eatToken tok l = some r → l = tok ++ r := by
  induction tok with
  | nil =>
    intro l r h
    simp [eatToken] at h
    simp [h]
  | cons c cs ih =>
    intro l r h
    cases l with
    | nil => simp [eatToken] at h
    | cons d ds =>
      simp only [eatToken] at h
      by_cases hcd : (c == d) = true
      · rw [if_pos hcd] at h
        have hde := ih ds r h
        simp [beq_iff_eq] at hcd
        simp [hcd, hde]
      · rw [if_neg hcd] at h
        exact absurd h (by simp)

theorem dropWhile_space_append (ind l : List Char) (h : ind.all isPySpace = true) :
    (ind ++ l).dropWhile isPySpace = l.dropWhile isPySpace := by
  induction ind with
  | nil => rfl
  | cons c cs ih =>
    simp only [List.all_cons, Bool.and_eq_true] at h
    simp [List.dropWhile_cons, h.1, ih h.2]

theorem takeWhile_space_append (ind : List Char) (c : Char) (l : List Char)
    (h : ind.all isPySpace = true) (hc : isPySpace c = false) :
    (ind ++ c :: l).takeWhile isPySpace = ind := by
  induction ind with
  | nil => simp [List.takeWhile_cons, hc]
  | cons d ds ih =>
    simp only [List.all_cons, Bool.and_eq_true] at h
    simp [List.takeWhile_cons, h.1, ih h.2]

theorem strContainsAux_of_parts (sub pre post : List Char) :
    strContainsAux sub (pre ++ (sub ++ post)) = true := by
  induction pre with
  | nil =>
    cases hsp : sub ++ post with
    | nil =>
      have hs : sub = [] := by
        cases sub with
        | nil => rfl
        | cons c cs => simp at hsp
      simp only [List.nil_append, hsp, strContainsAux, hs, List.isEmpty_nil]
    | cons c cs =>
      have h₂ : eatToken sub (sub ++ post) = some post := eatToken_self_append sub post
      rw [hsp] at h₂
      simp only [List.nil_append, hsp, strContainsAux, h₂, Option.isSome_some,
        Bool.true_or]
  | cons d ds ih =>
    simp only [List.cons_append, strContainsAux]
    rw [show ds.append (sub ++ post) = ds ++ (sub ++ post) from rfl, ih]
    simp

theorem data_of_append (a b : String) : (a ++ b).data = a.data ++ b.data := by
  cases a
  cases b
  rfl

theorem importAllowed_iff (name : String) :
    importAllowed name = true ↔
      ((∃ p, p ∈ ALLOWED_MODULE_PREFIXES ∧ pyStartsWith name p = true) ∨
        name ∈ ALLOWED_STD_MODULES) := by
  unfold importAllowed startsWithAnyAllowed isAllowedStdModule
  simp [List.any_eq_true, beq_iff_eq]

/-- C1: the sandbox import hook raises exactly for module names that
neither start with an allow-listed prefix nor are one of the allowed
standard modules, and delegates every allow-listed name to the
real import. -/
theorem c1_import_hook_reject_iff (name : String) :
    ((∃ msg, safe_import name = ImportOutcome.importError msg) ↔
      ¬ ((∃ p, p ∈ ALLOWED_MODULE_PREFIXES ∧ pyStartsWith name p = true) ∨
          name ∈ ALLOWED_STD_MODULES)) ∧
    (importAllowed name = true → safe_import name = ImportOutcome.delegated name) := by
  constructor
  · rw [← importAllowed_iff]
    cases h : importAllowed name with
    | false => simp [safe_import, h]
    | true => simp [safe_import, h]
  · intro h
    simp [safe_import, h]

/-- C1 witness: the hook delegates an allow-listed name and rejects a
non-allow-listed networking module. -/
theorem c1_import_hook_reject_iff_witness :
    safe_import "asyncio" = ImportOutcome.delegated "asyncio" ∧
    (∃ msg, safe_import "socket" = ImportOutcome.importError msg) :=
  ⟨(c1_import_hook_reject_iff "asyncio").2 (by decide),
   (c1_import_hook_reject_iff "socket").1.mpr (by decide)⟩

/-- C9: the allow-list test is a plain string-prefix check, so every name
beginning with an allowed prefix is delegated to the real import, even
when it is not the allowed module or one of its submodules. -/
theorem c9_prefix_only_check (name : String)
    (h : startsWithAnyAllowed name = true) :
    safe_import name = ImportOutcome.delegated name := by
  simp [safe_import, importAllowed, h]

/-- C9 witness: google_evil and asyncio2 are accepted by the hook. -/
theorem c9_prefix_only_check_witness :
    safe_import "google_evil" = ImportOutcome.delegated "google_evil" ∧
    safe_import "asyncio2" = ImportOutcome.delegated "asyncio2" :=
  ⟨c9_prefix_only_check "google_evil" (by decide),
   c9_prefix_only_check "asyncio2" (by decide)⟩

/-- C2 counterexample: the namespace handed to generated code contains the
injected global INPUT_TEXT, which is neither in the safe-builtin whitelist
nor an allow-listed import name, so the run has access to a symbol outside
the two whitelists. -/
theorem c2_counterexample_input_text :
    "INPUT_TEXT" ∈ execGlobalsKeys ∧
    "INPUT_TEXT" ∉ SAFE_BUILTIN_NAMES ∧
    importAllowed "INPUT_TEXT" = false := by decide

/-- C2 amended: in both files the execution namespace grants access only
to the safe-builtin whitelist, the guarded import hook, and the fixed
injected globals — builtins table, module name, package, spec and
INPUT_TEXT in dynamic_with_gradio.py, plus the sentinel y in
dynamic_agent.py; the hook raises for every module name outside
the import allow-list. -/
theorem c2_amended_namespace (k name : String) :
    (k ∈ execGlobalsKeys →
      k ∈ ["__builtins__", "__name__", "__package__", "__spec__", "INPUT_TEXT"]) ∧
    (k ∈ execGlobalsKeysAgent →
      k ∈ ["__builtins__", "__name__", "__package__", "__spec__", "y", "INPUT_TEXT"]) ∧
    (k ∈ safeBuiltinsKeys → (k ∈ SAFE_BUILTIN_NAMES ∨ k = "__import__")) ∧
    (importAllowed name = false →
      safe_import name = ImportOutcome.importError
        ("Import of '" ++ name ++ "' is not allowed in this runner.")) := by
  refine ⟨fun h => h, fun h => h, fun h => ?_, fun h => ?_⟩
  · rcases List.mem_append.mp h with h₁ | h₂
    · exact Or.inl h₁
    · exact Or.inr (List.mem_singleton.mp h₂)
  · simp [safe_import, h]

/-- C2 amended witness: a disallowed module raises from the hook, and the
injected globals INPUT_TEXT and y are among the fixed injected names of
their respective files. -/
theorem c2_amended_namespace_witness :
    safe_import "socket" = ImportOutcome.importError
      ("Import of '" ++ "socket" ++ "' is not allowed in this runner.") ∧
    "INPUT_TEXT" ∈ ["__builtins__", "__name__", "__package__", "__spec__", "INPUT_TEXT"] ∧
    "y" ∈ ["__builtins__", "__name__", "__package__", "__spec__", "y", "INPUT_TEXT"] :=
  ⟨(c2_amended_namespace "x" "socket").2.2.2 (by decide),
   (c2_amended_namespace "INPUT_TEXT" "x").1 (by decide),
   (c2_amended_namespace "y" "x").2.1 (by decide)⟩


theorem except_guard_spec (pieces : List String) (code res : String) :
    ((∃ out, (if pieces.all (fun s => strContains code s) then Except.ok res
        else Except.error "Generated code missing required ADK pieces.") = Except.ok out) ↔
      (∀ s, s ∈ pieces → strContains code s = true)) ∧
    (∀ s, s ∈ pieces → strContains code s = false →
      (if pieces.all (fun s => strContains code s) then Except.ok res
        else Except.error "Generated code missing required ADK pieces.") =
        Except.error "Generated code missing required ADK pieces.") := by
  have hv : pieces.all (fun s => strContains code s) = true ↔
      ∀ s, s ∈ pieces → strContains code s = true := by
    simp [List.all_eq_true]
  constructor
  · by_cases h : pieces.all (fun s => strContains code s) = true
    · simp only [h, if_true]
      constructor
      · intro _
        exact hv.mp h
      · intro _
        exact ⟨res, rfl⟩
    · have h' : pieces.all (fun s => strContains code s) = false := by
        cases hb : pieces.all (fun s => strContains code s)
        · rfl
        · exact absurd hb h
      simp only [h', Bool.false_eq_true, if_false]
      constructor
      · intro hex
        obtain ⟨out, hout⟩ := hex
        exact absurd hout (by simp)
      · intro hall
        exact absurd (hv.mpr hall) h
  · intro s hs hfalse
    have h' : pieces.all (fun s => strContains code s) = false := by
      cases hb : pieces.all (fun s => strContains code s)
      · rfl
      · exact absurd (hv.mp hb s hs) (by simp [hfalse])
    simp [h']

/-- C3 counterexample: dynamic_agent.py's generate_adk_code accepts this
extracted source, which contains none of the four required import
statements, so a source lacking the import-statement contract substrings
is accepted there and reaches that file's execution stage. -/
theorem c3_counterexample_agent_accepts :
    generate_adk_code_agent_postExtract c3AgentInput = Except.ok c3AgentInput ∧
    strContains c3AgentInput "from google.adk.agents import Agent" = false ∧
    strContains c3AgentInput "from google.adk.runners import Runner" = false ∧
    strContains c3AgentInput "from google.adk.sessions import InMemorySessionService" = false ∧
    strContains c3AgentInput "from google.genai import types" = false := by
  refine ⟨rfl, by decide, by decide, by decide, by decide⟩

/-- C3 amended: in dynamic_with_gradio.py the validation tail of
generate_adk_code accepts a source exactly when all five contract
substrings (the four import statements and the run_once signature) are
present, raising the validation error otherwise before the patch stage;
in dynamic_agent.py the guard tests only the weaker module-path
substrings, accepting exactly when those are present, so
the import-statement substrings are not required there. -/
theorem c3_required_pieces (code : String) :
    (((∃ out, generate_adk_code_postExtract code = Except.ok out) ↔
      (∀ s, s ∈ requiredPieces → strContains code s = true)) ∧
    (∀ s, s ∈ requiredPieces → strContains code s = false →
      generate_adk_code_postExtract code =
        Except.error "Generated code missing required ADK pieces.")) ∧
    (((∃ out, generate_adk_code_agent_postExtract code = Except.ok out) ↔
      (∀ s, s ∈ requiredPiecesAgent → strContains code s = true)) ∧
    (∀ s, s ∈ requiredPiecesAgent → strContains code s = false →
      generate_adk_code_agent_postExtract code =
        Except.error "Generated code missing required ADK pieces.")) := by
  constructor
  · exact except_guard_spec requiredPieces code (patch_generated_code code)
  · exact except_guard_spec requiredPiecesAgent code code

/-- C3 witness: the gradio validator rejects a source missing the import
statements and accepts one containing all five pieces; the agent
validator rejects a source missing its module-path substrings. -/
theorem c3_required_pieces_witness :
    generate_adk_code_postExtract "print('hi')" =
      Except.error "Generated code missing required ADK pieces." ∧
    (∃ out, generate_adk_code_postExtract
      "from google.adk.agents import Agent\nfrom google.adk.runners import Runner\nfrom google.adk.sessions import InMemorySessionService\nfrom google.genai import types\nimport asyncio\n\nasync def run_once(user_text: str) -> str:\n    return user_text" =
        Except.ok out) ∧
    generate_adk_code_agent_postExtract "print('hi')" =
      Except.error "Generated code missing required ADK pieces." :=
  ⟨(c3_required_pieces "print('hi')").1.2 "from google.adk.agents import Agent"
      (by decide) (by decide),
   (c3_required_pieces _).1.1.mpr (by decide),
   (c3_required_pieces "print('hi')").2.2 "google.adk.agents" (by decide) (by decide)⟩

/-- C4 (code-bug evidence): on this input the pure print line inside
run_once is stripped, but the later top-level print after the function
body has ended is stripped as well, because the body-end detection of
patch step 1 only fires on a later function header; the claim, the spec,
and the code's own comment say such a print is left untouched. -/
theorem c4_top_level_print_stripped :
    patchStep1 c4Input =
      "async def run_once(user_text: str) -> str:\n    return user_text\n" ∧
    strContains c4Input "print(\"AFTER\")" = true ∧
    strContains (patchStep1 c4Input) "AFTER" = false := by
  refine ⟨by decide, by decide, by decide⟩

/-- C7 counterexample: a source whose session-creation call uses literal
arguments references none of the three constants, yet patch step 3
prepends the constants header, contradicting the claim that the header is
injected only when the constants are referenced but undefined. -/
theorem c7_counterexample_unreferenced_injection :
    strContains c7Input "APP_NAME" = false ∧
    strContains c7Input "USER_ID" = false ∧
    strContains c7Input "SESSION_ID" = false ∧
    patchStep3 c7Input = constantsHeader ++ c7Input ∧
    patchStep3 c7Input ≠ c7Input := by
  refine ⟨by decide, by decide, by decide, by decide, by decide⟩

/-- C7 amended: patch step 3 prepends the constants header exactly when
the source contains a session-creation call textually and at least one of
the three constant names does not occur as a substring; otherwise the
source is left unchanged. -/
theorem c7_amended_constants_injection (src : String) :
    (patchStep3 src = src ∨ patchStep3 src = constantsHeader ++ src) ∧
    (patchStep3 src = constantsHeader ++ src ↔
      (strContains src "session_service.create_session" = true ∧
        ¬(strContains src "APP_NAME" = true ∧ strContains src "USER_ID" = true ∧
          strContains src "SESSION_ID" = true))) := by
  have hne : constantsHeader ++ src ≠ src := by
    intro h
    have hd := congrArg String.data h
    rw [data_of_append] at hd
    have hlen := congrArg List.length hd
    rw [List.length_append] at hlen
    have hpos : 0 < constantsHeader.data.length := by decide
    omega
  have hiff : (strContains src "session_service.create_session" &&
      !(strContains src "APP_NAME" && strContains src "USER_ID" &&
        strContains src "SESSION_ID")) = true ↔
      (strContains src "session_service.create_session" = true ∧
        ¬(strContains src "APP_NAME" = true ∧ strContains src "USER_ID" = true ∧
          strContains src "SESSION_ID" = true)) := by
    constructor
    · intro h
      have h' := Bool.and_eq_true_iff.mp h
      refine ⟨h'.1, fun hc => ?_⟩
      have := h'.2
      rw [hc.1, hc.2.1, hc.2.2] at this
      simp at this
    · intro h
      refine Bool.and_eq_true_iff.mpr ⟨h.1, ?_⟩
      cases ha : strContains src "APP_NAME" <;>
        cases hb : strContains src "USER_ID" <;>
          cases hc : strContains src "SESSION_ID" <;> simp_all
  by_cases h : (strContains src "session_service.create_session" &&
      !(strContains src "APP_NAME" && strContains src "USER_ID" &&
        strContains src "SESSION_ID")) = true
  · have hps : patchStep3 src = constantsHeader ++ src := by
      unfold patchStep3
      rw [h]
      rfl
    refine ⟨Or.inr hps, ?_⟩
    constructor
    · intro _
      exact hiff.mp h
    · intro _
      exact hps
  · have h' : (strContains src "session_service.create_session" &&
        !(strContains src "APP_NAME" && strContains src "USER_ID" &&
          strContains src "SESSION_ID")) = false := by
      cases hb : (strContains src "session_service.create_session" &&
          !(strContains src "APP_NAME" && strContains src "USER_ID" &&
            strContains src "SESSION_ID"))
      · rfl
      · exact absurd hb h
    have hps : patchStep3 src = src := by
      unfold patchStep3
      rw [h']
      rfl
    refine ⟨Or.inl hps, ?_⟩
    constructor
    · intro he
      rw [hps] at he
      exact absurd he.symm hne
    · intro hc
      exact absurd (hiff.mpr hc) h

/-- C7 amended witness: a source with a session-creation call and one
constant defined but not the others still gets the header. -/
theorem c7_amended_constants_injection_witness :
    patchStep3 "x = session_service.create_session(APP_NAME)" =
      constantsHeader ++ "x = session_service.create_session(APP_NAME)" :=
  (c7_amended_constants_injection _).2.mpr ⟨by decide, by decide⟩

theorem matchCreateSession_no_await (ind args : List Char)
    (hind : ind.all isPySpace = true) :
    matchCreateSessionL (ind ++ (sscsTok ++ (args ++ [')']))) = some (ind, args) := by
  have hcons : sscsTok ++ (args ++ [')']) =
      's' :: ("ession_service.create_session(".toList ++ (args ++ [')'])) := rfl
  have htake : (ind ++ (sscsTok ++ (args ++ [')']))).takeWhile isPySpace = ind := by
    rw [hcons]
    exact takeWhile_space_append ind 's' _ hind (by decide)
  have hdrop : (ind ++ (sscsTok ++ (args ++ [')']))).dropWhile isPySpace =
      sscsTok ++ (args ++ [')']) := by
    rw [dropWhile_space_append _ _ hind, hcons]
    exact List.dropWhile_cons_of_neg (by decide)
  have hafter : afterAwaitOpt (sscsTok ++ (args ++ [')'])) = sscsTok ++ (args ++ [')']) := by
    rw [hcons]
    rfl
  have hparen : (')' :: args.reverse).dropWhile isPySpace = ')' :: args.reverse :=
    List.dropWhile_cons_of_neg (by decide)
  simp only [matchCreateSessionL, htake, hdrop, hafter, eatToken_self_append,
    List.reverse_append, List.reverse_cons, List.reverse_nil, List.nil_append,
    List.singleton_append, hparen, beq_self_eq_true, if_true, List.reverse_reverse]

theorem matchCreateSession_with_await (ind args : List Char)
    (hind : ind.all isPySpace = true) :
    matchCreateSessionL (ind ++ ("await ".toList ++ (sscsTok ++ (args ++ [')'])))) =
      some (ind, args) := by
  have hconsA : "await ".toList ++ (sscsTok ++ (args ++ [')'])) =
      'a' :: ("wait ".toList ++ (sscsTok ++ (args ++ [')']))) := rfl
  have hcons : sscsTok ++ (args ++ [')']) =
      's' :: ("ession_service.create_session(".toList ++ (args ++ [')'])) := rfl
  have htake : (ind ++ ("await ".toList ++ (sscsTok ++ (args ++ [')'])))).takeWhile isPySpace
      = ind := by
    rw [hconsA]
    exact takeWhile_space_append ind 'a' _ hind (by decide)
  have hdrop : (ind ++ ("await ".toList ++ (sscsTok ++ (args ++ [')'])))).dropWhile isPySpace
      = "await ".toList ++ (sscsTok ++ (args ++ [')'])) := by
    rw [dropWhile_space_append _ _ hind, hconsA]
    exact List.dropWhile_cons_of_neg (by decide)
  have he : eatToken "await".toList ("await ".toList ++ (sscsTok ++ (args ++ [')'])))
      = some (' ' :: (sscsTok ++ (args ++ [')']))) := by
    rw [show "await ".toList ++ (sscsTok ++ (args ++ [')'])) =
      "await".toList ++ (' ' :: (sscsTok ++ (args ++ [')']))) from rfl]
    exact eatToken_self_append _ _
  have hspc : eatSpaces1 (' ' :: (sscsTok ++ (args ++ [')'])))
      = some (sscsTok ++ (args ++ [')'])) := by
    have h₁ : isPySpace ' ' = true := by decide
    simp only [eatSpaces1, h₁, if_true]
    rw [hcons]
    exact congrArg some (List.dropWhile_cons_of_neg (by decide))
  have hafter : afterAwaitOpt ("await ".toList ++ (sscsTok ++ (args ++ [')']))) =
      sscsTok ++ (args ++ [')']) := by
    simp only [afterAwaitOpt, he, hspc]
  have hparen : (')' :: args.reverse).dropWhile isPySpace = ')' :: args.reverse :=
    List.dropWhile_cons_of_neg (by decide)
  simp only [matchCreateSessionL, htake, hdrop, hafter, eatToken_self_append,
    List.reverse_append, List.reverse_cons, List.reverse_nil, List.nil_append,
    List.singleton_append, hparen, beq_self_eq_true, if_true, List.reverse_reverse]

theorem afterAwaitOpt_suffix (rest : List Char) :
    ∃ pre, rest = pre ++ afterAwaitOpt rest := by
  cases h₁ : eatToken "await".toList rest with
  | none =>
    refine ⟨[], ?_⟩
    simp only [afterAwaitOpt, h₁, List.nil_append]
  | some r =>
    cases h₂ : eatSpaces1 r with
    | none =>
      refine ⟨[], ?_⟩
      simp only [afterAwaitOpt, h₁, h₂, List.nil_append]
    | some r₂ =>
      have hafter : afterAwaitOpt rest = r₂ := by
        simp only [afterAwaitOpt, h₁, h₂]
      rw [hafter]
      have hr : rest = "await".toList ++ r := eatToken_eq_some _ _ _ h₁
      cases r with
      | nil => simp [eatSpaces1] at h₂
      | cons c cs =>
        simp only [eatSpaces1] at h₂
        by_cases hc : isPySpace c = true
        · rw [if_pos hc] at h₂
          injection h₂ with h₂
          refine ⟨"await".toList ++ (c :: cs.takeWhile isPySpace), ?_⟩
          have hcs : cs = cs.takeWhile isPySpace ++ r₂ := by
            rw [← h₂]
            exact (List.takeWhile_append_dropWhile isPySpace cs).symm
          rw [hr, show ("await".toList ++ (c :: cs.takeWhile isPySpace)) ++ r₂ =
            "await".toList ++ (c :: (cs.takeWhile isPySpace ++ r₂)) from by simp, ← hcs]
        · rw [if_neg hc] at h₂
          exact absurd h₂ (by simp)

theorem matchCreateSession_some_contains (l : List Char)
    (x : List Char × List Char) (h : matchCreateSessionL l = some x) :
    strContainsAux "session_service.create_session".toList l = true := by
  cases heat : eatToken sscsTok (afterAwaitOpt (l.dropWhile isPySpace)) with
  | none =>
    exfalso
    simp only [matchCreateSessionL, heat] at h
    exact Option.noConfusion h
  | some r =>
    obtain ⟨pre, hpre⟩ := afterAwaitOpt_suffix (l.dropWhile isPySpace)
    have h₂ : afterAwaitOpt (l.dropWhile isPySpace) = sscsTok ++ r :=
      eatToken_eq_some _ _ _ heat
    have hl : l = (l.takeWhile isPySpace ++ pre) ++
        ("session_service.create_session".toList ++ ('(' :: r)) := by
      calc l = l.takeWhile isPySpace ++ l.dropWhile isPySpace :=
            (List.takeWhile_append_dropWhile isPySpace l).symm
        _ = l.takeWhile isPySpace ++ (pre ++ (sscsTok ++ r)) := by
            rw [hpre, h₂]
        _ = (l.takeWhile isPySpace ++ pre) ++
            ("session_service.create_session".toList ++ ('(' :: r)) := by
            rw [show sscsTok = "session_service.create_session".toList ++ ['('] from rfl]
            simp [List.append_assoc]
    rw [hl]
    exact strContainsAux_of_parts _ _ _

/-- C6: patch step 2 rewrites a single-line session-creation call, with or
without a leading await, into the three-line pattern that performs the
call unconditionally and awaits the result only under the hasattr guard;
a line not containing the session-creation call text is unchanged; and the
emitted guard awaits the result exactly when it exposes the awaitable
interface, leaving a synchronous result unawaited. -/
theorem c6_normalize_create_session (ind args : List Char) (line : String)
    (hind : ind.all isPySpace = true)
    (hother : strContains line "session_service.create_session" = false) :
    (normalizeCreateSessionLine (String.mk (ind ++ (sscsTok ++ (args ++ [')'])))) =
      [String.mk (ind ++ ("_maybe = session_service.create_session(".toList ++ (args ++ [')']))),
       String.mk (ind ++ "if hasattr(_maybe, '__await__'):".toList),
       String.mk (ind ++ "    await _maybe".toList)]) ∧
    (normalizeCreateSessionLine
        (String.mk (ind ++ ("await ".toList ++ (sscsTok ++ (args ++ [')']))))) =
      [String.mk (ind ++ ("_maybe = session_service.create_session(".toList ++ (args ++ [')']))),
       String.mk (ind ++ "if hasattr(_maybe, '__await__'):".toList),
       String.mk (ind ++ "    await _maybe".toList)]) ∧
    (normalizeCreateSessionLine line = [line]) ∧
    (∀ res : SessionCallResult, (runEmittedGuard res).1 = true ∧
      ((runEmittedGuard res).2 = true ↔ res.hasAwaitDunder = true)) := by
  refine ⟨?_, ?_, ?_, ?_⟩
  · unfold normalizeCreateSessionLine normLineL
    rw [show (String.mk (ind ++ (sscsTok ++ (args ++ [')'])))).toList =
      ind ++ (sscsTok ++ (args ++ [')'])) from rfl]
    rw [matchCreateSession_no_await ind args hind]
    simp [List.append_assoc]
  · unfold normalizeCreateSessionLine normLineL
    rw [show (String.mk (ind ++ ("await ".toList ++ (sscsTok ++ (args ++ [')']))))).toList =
      ind ++ ("await ".toList ++ (sscsTok ++ (args ++ [')']))) from rfl]
    rw [matchCreateSession_with_await ind args hind]
    simp [List.append_assoc]
  · unfold normalizeCreateSessionLine normLineL
    cases hm : matchCreateSessionL line.toList with
    | none => rfl
    | some x =>
      exfalso
      have hcontains := matchCreateSession_some_contains line.toList x hm
      rw [show strContainsAux "session_service.create_session".toList line.toList =
        strContains line "session_service.create_session" from rfl, hother] at hcontains
      exact Bool.noConfusion hcontains
  · intro res
    refine ⟨rfl, ?_⟩
    cases hres : res.hasAwaitDunder with
    | false => simp [runEmittedGuard, hres]
    | true => simp [runEmittedGuard, hres]

/-- C6 witness: the two fixture lines, a synchronous and an await call
shape, rewrite to the same guarded pattern, and an unrelated line is
unchanged. -/
theorem c6_normalize_create_session_witness :
    normalizeCreateSessionLine "    session_service.create_session(app_name=APP_NAME)" =
      ["    _maybe = session_service.create_session(app_name=APP_NAME)",
       "    if hasattr(_maybe, '__await__'):",
       "        await _maybe"] ∧
    normalizeCreateSessionLine "    await session_service.create_session(app_name=APP_NAME)" =
      ["    _maybe = session_service.create_session(app_name=APP_NAME)",
       "    if hasattr(_maybe, '__await__'):",
       "        await _maybe"] ∧
    normalizeCreateSessionLine "    return result" = ["    return result"] := by
  have h := c6_normalize_create_session "    ".toList "app_name=APP_NAME".toList
    "    return result" (by decide) (by decide)
  exact ⟨h.1, h.2.1, h.2.2.1⟩

theorem llmRun_ok_at (call : Nat → Except String String) (r : String)
    (fuel att : Nat) (h : call att = Except.ok r) :
    llmRun call (fuel + 1) att = (Except.ok (some r), att + 1, []) := by
  cases fuel with
  | zero => simp [llmRun, h]
  | succ k => simp [llmRun, h]

theorem llmRun_attempts_le (call : Nat → Except String String) :
    ∀ fuel att, (llmRun call fuel att).2.1 ≤ att + fuel
  | 0, att => by simp [llmRun]
  | 1, att => by
    cases h : call att with
    | ok r => simp [llmRun, h]
    | error e => simp [llmRun, h]
  | fuel + 2, att => by
    cases h : call att with
    | ok r =>
      simp only [llmRun, h]
      omega
    | error e =>
      have ih := llmRun_attempts_le call (fuel + 1) (att + 1)
      simp only [llmRun, h]
      omega

theorem llmRun_all_error (call : Nat → Except String String) (err : Nat → String)
    (hc : ∀ i, call i = Except.error (err i)) :
    ∀ fuel att, llmRun call (fuel + 1) att =
      (Except.error (err (att + fuel)), att + fuel + 1,
        (List.range' att fuel).map (fun i => 750 * 2 ^ i))
  | 0, att => by simp [llmRun, hc att]
  | fuel + 1, att => by
    have ih := llmRun_all_error call err hc fuel (att + 1)
    have harith : att + 1 + fuel = att + (fuel + 1) := by omega
    simp only [llmRun, hc att, ih, harith, List.range'_succ, List.map_cons]

theorem llmRun_third_ok (call : Nat → Except String String) (mr : Nat)
    (r : String) (h3 : 3 ≤ mr) (h0 : ∃ e, call 0 = Except.error e)
    (h1 : ∃ e, call 1 = Except.error e) (h2 : call 2 = Except.ok r) :
    llm_completion call mr = (Except.ok (some r), 3, [750, 1500]) := by
  obtain ⟨k, rfl⟩ : ∃ k, mr = k + 3 := ⟨mr - 3, by omega⟩
  obtain ⟨e₀, h0⟩ := h0
  obtain ⟨e₁, h1⟩ := h1
  have hstep : llmRun call (k + 1) 2 = (Except.ok (some r), 3, []) :=
    llmRun_ok_at call r k 2 h2
  have h32 : k + 3 = (k + 1) + 2 := rfl
  have h22 : k + 2 = k + 2 := rfl
  simp only [llm_completion, h32, llmRun, h0, h1, hstep]
  norm_num

/-- C5: the retry wrapper returns the third attempt's success after two
transient failures when the configured count allows a third attempt; it
never performs more attempts than the configured count; and on a
permanently failing call it performs exactly the configured number of
attempts, sleeps with exponential backoff (750, 1500, ... milliseconds)
between attempts, and re-raises the final attempt's error. -/
theorem c5_retry_policy (call : Nat → Except String String) (mr : Nat) :
    (∀ e₀ e₁ r, 3 ≤ mr → call 0 = Except.error e₀ → call 1 = Except.error e₁ →
      call 2 = Except.ok r →
      llm_completion call mr = (Except.ok (some r), 3, [750, 1500])) ∧
    ((llm_completion call mr).2.1 ≤ mr) ∧
    (∀ err : Nat → String, (∀ i, call i = Except.error (err i)) → 1 ≤ mr →
      llm_completion call mr =
        (Except.error (err (mr - 1)), mr,
          (List.range (mr - 1)).map (fun i => 750 * 2 ^ i))) := by
  refine ⟨?_, ?_, ?_⟩
  · intro e₀ e₁ r h3 h0 h1 h2
    exact llmRun_third_ok call mr r h3 ⟨e₀, h0⟩ ⟨e₁, h1⟩ h2
  · have h := llmRun_attempts_le call mr 0
    simpa [llm_completion] using h
  · intro err hc h1
    obtain ⟨k, rfl⟩ : ∃ k, mr = k + 1 := ⟨mr - 1, by omega⟩
    have h := llmRun_all_error call err hc k 0
    simp only [llm_completion, h, List.range_eq_range']
    simp

/-- C5 witness: a call failing twice then succeeding returns the success
with two backoff sleeps, and a permanently failing call with three
configured retries raises after exactly three attempts. -/
theorem c5_retry_policy_witness :
    llm_completion
        (fun i => if i = 0 then Except.error "e0"
          else if i = 1 then Except.error "e1" else Except.ok "r") 3 =
      (Except.ok (some "r"), 3, [750, 1500]) ∧
    llm_completion (fun _ => Except.error "down") 3 =
      (Except.error "down", 3, [750, 1500]) := by
  constructor
  · exact (c5_retry_policy _ 3).1 "e0" "e1" "r" (by omega) rfl rfl rfl
  · have h := (c5_retry_policy (fun _ => Except.error "down") 3).2.2
      (fun _ => "down") (fun i => rfl) (by omega)
    rw [h]
    rfl

/-- C8: in whole-script mode, a runtime exception raised while executing
the compiled generated code is re-raised as an error whose message
contains the standard output captured up to the failure, so the failure
propagates to the caller together with the partial stdout. -/
theorem c8_runtime_error_wraps_stdout (a : ExecAttempt) (e : String)
    (h : a.failure = some e) :
    ∃ msg, wholeScriptOutcome a = Except.error msg ∧
      ∃ pre, msg = pre ++ a.partialOut := by
  refine ⟨"Error while executing generated code: " ++ e ++ "\n\nCaptured stdout:\n"
      ++ a.partialOut, ?_, "Error while executing generated code: " ++ e ++
      "\n\nCaptured stdout:\n", rfl⟩
  simp [wholeScriptOutcome, h]

/-- C8 witness: a concrete failing execution yields an error message
ending in the captured partial stdout. -/
theorem c8_runtime_error_wraps_stdout_witness :
    ∃ msg, wholeScriptOutcome ⟨"partial text", some "boom"⟩ = Except.error msg ∧
      ∃ pre, msg = pre ++ "partial text" :=
  c8_runtime_error_wraps_stdout ⟨"partial text", some "boom"⟩ "boom" rfl

/-- C10: with the retry count zero, which the front end clamp max(0, ...)
can produce, the wrapper performs zero attempts of the completion call and
returns Python None without raising. -/
theorem c10_zero_retries_returns_none (call : Nat → Except String String) :
    llm_completion call (clampRetries 0) = (Except.ok none, 0, []) := rfl
